import Mathlib

/-!
A shallow embedding of `lib/kju.js` (the `kju` self-tuning batching buffer).

Modelling conventions:

* JavaScript numbers used for intervals (`ms`, `interval`, `minimum`,
  `maximum`) are modelled as `ℚ`; the operations involved (`+`, `-`, `/ 2`,
  `* 2`, comparisons) are exact on rationals.  Item counts (`length`,
  `limit`, `drained`, `processed`) are natural numbers.
* Buffered items are opaque values of a type parameter `α`
  (the source pushes arbitrary JS values).
* Event emission (`this.emit(...)`) is modelled by returning the list of
  events emitted by an operation, in emission order.
* The file system is modelled as `Option (List (String × fileContent α))`:
  `none` means the configured persistence directory does not exist, `some
  files` is the directory listing, each entry pairing a file name with what
  reading/parsing that file would yield.
* The timer plumbing (`this.timeout`, `setTimeout`) is not part of the state
  model; a scheduler tick on an enabled queue is the `update` function (on a
  disabled queue `update` returns immediately and changes nothing, source
  line 184).
-/

/-- Events published through the emitter, in the order the source emits
them.  `data` carries the drained batch and the count (source line 149),
`warningMaximum`/`warningMinimum` are `warning.maximum` / `warning.minimum`
(lines 200, 211), `errorRecover` is `error.recover` carrying the offending
file name (lines 304, 314-317), `errorBackup` is `error.backup` (line 280). -/
inductive event (α : Type) where
  | data (batch : List α) (count : ℕ)
  | warningMaximum
  | warningMinimum
  | errorRecover (file : String)
  | errorBackup
deriving DecidableEq

/-- What reading and JSON-parsing a persisted file yields: the read itself
can fail (`unreadable`, the `err` branch of `fs.readFile`, line 304), the
contents can fail `JSON.parse` (`corrupt`, lines 308-318), or the contents
parse as a JSON array of items (`array`). -/
inductive fileContent (α : Type) where
  | unreadable
  | corrupt
  | array (items : List α)
deriving DecidableEq

/-- The mutable state of a `kju` instance: configuration fields `limit`,
`ms`, `interval`, `warnings` (source lines 38-41, possibly overridden by the
configuration object), and the non-configurable fields set at lines 52-60:
`buffer`, `length`, `drained`, `processed`, `since`, `minimum`, `maximum`. -/
structure kju (α : Type) where
  limit : ℕ
  ms : ℚ
  interval : ℚ
  warnings : Bool
  buffer : List α
  length : ℕ
  drained : ℕ
  processed : ℕ
  since : ℕ
  minimum : ℚ
  maximum : ℚ
deriving DecidableEq

/-- State produced by the `kju` constructor (source lines 33-72) before any
recovery: empty buffer, zero counters, `since` the construction time,
`minimum = interval / 2` and `maximum = interval * 2` (lines 59-60). -/
def kju.init (α : Type) (limit : ℕ) (ms interval : ℚ) (warnings : Bool)
    (since : ℕ) : kju α :=
  { limit := limit
    ms := ms
    interval := interval
    warnings := warnings
    buffer := []
    length := 0
    drained := 0
    processed := 0
    since := since
    minimum := interval / 2
    maximum := interval * 2 }

/-- Model of `kju.prototype.push` (source lines 130-139): adds the argument count to
`length` and appends the arguments to `buffer`.  Line 136 reads
`if (this.length >= this.limit) this.update.bind(this);` — `bind` only
creates a bound function, which is immediately discarded without being
called, so reaching the limit has no effect; nothing else is mutated and no
event is emitted. -/
def kju.push {α : Type} (q : kju α) (items : List α) : kju α :=
  { q with
    length := q.length + items.length
    buffer := q.buffer ++ items }

/-- Model of `kju.prototype.drain` (source lines 148-157): unconditionally emits
`data` with the spliced-out buffer and the current `length`, then increments
`drained`, adds the old `length` to `processed`, and resets `length` to 0.
There is no guard for an empty buffer. -/
def kju.drain {α : Type} (q : kju α) : kju α × List (event α) :=
  ({ q with
      buffer := []
      drained := q.drained + 1
      processed := q.processed + q.length
      length := 0 },
    [event.data q.buffer q.length])

/-- The interval-adjustment part of `kju.prototype.update` (source lines
191-214).  Underfull (`!this.length || this.length < this.limit`): if
`interval >= maximum` set it to `maximum`, otherwise add `ms` (lines
194-196; note the sum is not clamped, so it can exceed `maximum`); emit
`warning.maximum` when warnings are on and the new interval equals
`maximum` exactly (lines 199-201).  Otherwise, when `length >= limit`: if
`interval <= minimum` set it to `minimum`, otherwise subtract `ms` (lines
205-207), emitting `warning.minimum` analogously (lines 210-212). -/
def kju.updateInterval {α : Type} (q : kju α) : kju α × List (event α) :=
  if q.length = 0 ∨ q.length < q.limit then
    ({ q with interval := if q.maximum ≤ q.interval then q.maximum else q.interval + q.ms },
      if q.warnings = true ∧
          (if q.maximum ≤ q.interval then q.maximum else q.interval + q.ms) = q.maximum then
        [event.warningMaximum]
      else [])
  else if q.limit ≤ q.length then
    ({ q with interval := if q.interval ≤ q.minimum then q.minimum else q.interval - q.ms },
      if q.warnings = true ∧
          (if q.interval ≤ q.minimum then q.minimum else q.interval - q.ms) = q.minimum then
        [event.warningMinimum]
      else [])
  else (q, [])

/-- Model of `kju.prototype.update` on an enabled queue (source lines 182-221):
recompute the interval (and possibly warn), reschedule the timer (not part
of the state model), then `if (this.length) this.drain()` (line 220).  The
interval adjustment does not change `length`, so the drain guard reads the
original fill state. -/
def kju.update {α : Type} (q : kju α) : kju α × List (event α) :=
  if (kju.updateInterval q).1.length ≠ 0 then
    ((kju.drain (kju.updateInterval q).1).1,
      (kju.updateInterval q).2 ++ (kju.drain (kju.updateInterval q).1).2)
  else kju.updateInterval q

/-- The record returned by `kju.prototype.metrics` (source lines 230-242).
`itemsPerMinute` and `drainsPerMinute` are modelled as the numeric values
before the `.toFixed(2)` string formatting. -/
structure metricsResult where
  drain : ℕ
  processed : ℕ
  uptime : ℕ
  interval : ℚ
  itemsPerMinute : ℚ
  drainsPerMinute : Option ℚ
deriving DecidableEq

/-- Model of `kju.prototype.metrics` (source lines 230-242), taking the current clock
reading `now` as a parameter.  `uptime` is `this.since ? Date.now() -
this.since : 0` (line 231).  the items-per-minute field is computed as
`this.processed / minute` with `minute = 1000 * 60` (line 239) — the uptime
is not used.  The drains-per-minute field is `this.drain / minute` (line 240),
but `this.drain` is the *drain method* (a function), not the `drained`
counter, so the division yields `NaN`; `NaN` is modelled as `none`. -/
def kju.metrics {α : Type} (q : kju α) (now : ℕ) : metricsResult :=
  { drain := q.drained
    processed := q.processed
    uptime := if q.since ≠ 0 then now - q.since else 0
    interval := q.interval
    itemsPerMinute := (q.processed : ℚ) / (1000 * 60)
    drainsPerMinute := none }

/-- The `/\.kju$/` regular-expression test used to filter directory listings
(source lines 255 and 283), on the character data of the file name. -/
def kjuFile (file : String) : Bool :=
  ".kju".data.isSuffixOf file.data

/-- Model of `kju.prototype.backup` (source lines 251-257): if the path does not
exist, return immediately; otherwise `fs.readdirSync` the directory and
filter the listing to `.kju` files — the resulting `files` variable is never
used, no file is written, and the function ends.  The returned directory
state is unchanged. -/
def kju.backup {α : Type} (dir : Option (List (String × fileContent α)))
    (q : kju α) : Option (List (String × fileContent α)) × List (event α) :=
  match dir with
  | none => (none, [])
  | some files =>
      let _kjud := files.filter fun f => kjuFile f.1
      (some files, [])

/-- The `read` callback inside `kju.prototype.recovery` (source lines
302-322) for one file: on a read error emit `error.recover` (line 304); on
a parse error emit `error.recover` naming the corrupted file (lines
313-318); on success `self.push.apply(self, todo)` with the parsed items
(line 312).  No branch deletes the file. -/
def kju.readOne {α : Type} (q : kju α) (f : String × fileContent α) :
    kju α × List (event α) :=
  match f.2 with
  | fileContent.unreadable => (q, [event.errorRecover f.1])
  | fileContent.corrupt => (q, [event.errorRecover f.1])
  | fileContent.array items => (kju.push q items, [])

/-- Model of `kjud.forEach(read)` (source line 290): process each filtered file with
`readOne`, threading the queue state and concatenating emitted events.  The
source issues the reads concurrently; this models one completion order
(intra-file item order is preserved regardless). -/
def kju.recoverFiles {α : Type} (q : kju α) :
    List (String × fileContent α) → kju α × List (event α)
  | [] => (q, [])
  | f :: rest =>
      ((kju.recoverFiles (kju.readOne q f).1 rest).1,
        (kju.readOne q f).2 ++ (kju.recoverFiles (kju.readOne q f).1 rest).2)

/-- Model of `kju.prototype.recovery` (source lines 266-330): if the path does not
exist, do nothing; otherwise list the directory, filter to `.kju` files
(lines 282-284) and process each with `read`.  No file is ever deleted, so
the directory state is returned unchanged. -/
def kju.recovery {α : Type} (dir : Option (List (String × fileContent α)))
    (q : kju α) :
    Option (List (String × fileContent α)) × kju α × List (event α) :=
  match dir with
  | none => (none, q, [])
  | some files =>
      (some files,
        (kju.recoverFiles q (files.filter fun f => kjuFile f.1)).1,
        (kju.recoverFiles q (files.filter fun f => kjuFile f.1)).2)

/-- Construction of a `kju` instance (source lines 33-72) restricted to the
state and directory effects: build the initial state, then run `recovery`
when the `recover` flag is set (line 65). -/
def kju.construct (α : Type) (limit : ℕ) (ms interval : ℚ)
    (warnings recover : Bool) (since : ℕ)
    (dir : Option (List (String × fileContent α))) :
    Option (List (String × fileContent α)) × kju α × List (event α) :=
  if recover then
    kju.recovery dir (kju.init α limit ms interval warnings since)
  else
    (dir, kju.init α limit ms interval warnings since, [])

/-- Run `n` consecutive scheduler ticks (`update`) from a state, collecting
all emitted events in order. -/
def kju.runTicks {α : Type} (q : kju α) : ℕ → kju α × List (event α)
  | 0 => (q, [])
  | n + 1 =>
      ((kju.runTicks (kju.update q).1 n).1,
        (kju.update q).2 ++ (kju.runTicks (kju.update q).1 n).2)

/-- The items a recovery file contributes to the buffer: its parsed array on
success, nothing on a read or parse failure. -/
def fileItems {α : Type} (f : String × fileContent α) : List α :=
  match f.2 with
  | fileContent.array items => items
  | _ => []

/-- The events one recovery file causes: `error.recover` naming the file on
a read or parse failure, nothing on success. -/
def fileEvents {α : Type} (f : String × fileContent α) : List (event α) :=
  match f.2 with
  | fileContent.array _ => []
  | _ => [event.errorRecover f.1]

/-- States reachable from a freshly constructed queue by any interleaving of
pushes, enabled scheduler ticks and drains.  (A tick on a disabled queue
returns without touching the state, source line 184, so it is covered by
reflexivity.) -/
inductive reachable {α : Type} (limit : ℕ) (ms b : ℚ) (w : Bool) (s : ℕ) :
    kju α → Prop where
  | init : reachable limit ms b w s (kju.init α limit ms b w s)
  | push : ∀ q items, reachable limit ms b w s q →
      reachable limit ms b w s (kju.push q items)
  | tick : ∀ q, reachable limit ms b w s q →
      reachable limit ms b w s (kju.update q).1
  | drainStep : ∀ q, reachable limit ms b w s q →
      reachable limit ms b w s (kju.drain q).1

/-- Directory listing for the recovery scenario of §8: exactly one file
`batch.kju` whose contents parse as the JSON array `["x","y"]`. -/
def batchFs : List (String × fileContent String) :=
  [("batch.kju", fileContent.array ["x", "y"])]

/-- A directory listing that already holds one earlier recovery file. -/
def oldFs : List (String × fileContent String) :=
  [("old.kju", fileContent.array ["z"])]

/-- A queue holding the single item "a". -/
def qa : kju String :=
  (kju.init String 500 100 15000 true 0).push ["a"]

/-- C1: the round-trip fails on the code.  `backup` on a queue whose buffer
is the non-empty sequence `["a"]` leaves the (existing, empty) persistence
directory unchanged — it writes no file — so a fresh queue constructed with
`recover = true` over that directory recovers nothing and its buffer is
empty, not `["a"]`. -/
theorem C1_backup_then_recover_loses_items :
    qa.buffer = ["a"] ∧
    (kju.backup (some []) qa).1 = some [] ∧
    (kju.construct String 500 100 15000 true true 0
        (kju.backup (some []) qa).1).2.1.buffer = [] := by
  decide

/-- C2: `backup` on a queue with buffer `["a"]` over an existing directory
returns the directory listing unchanged (no newly named file is created, no
serialization of the buffer happens) and emits nothing; over a missing
directory it is a no-op.  This contradicts the claimed "serializes the
entire current buffer as a single JSON array to a newly named file". -/
theorem C2_backup_serializes_nothing :
    (kju.backup (some oldFs) qa).1 = some oldFs ∧
    (kju.backup (some oldFs) qa).2 = [] ∧
    (kju.backup (none : Option (List (String × fileContent String))) qa).1
      = none := by
  decide

/-- C3: recovering from a directory holding exactly `batch.kju` with
contents `["x","y"]` pushes the items in order (buffer `["x","y"]`, length
2), but the consumed file is NOT deleted: the directory after recovery still
holds `batch.kju`, contradicting the claimed "the file no longer exists". -/
theorem C3_recovery_keeps_consumed_file :
    (kju.construct String 500 100 15000 true true 0 (some batchFs)).2.1.buffer
        = ["x", "y"] ∧
    (kju.construct String 500 100 15000 true true 0 (some batchFs)).2.1.length
        = 2 ∧
    (kju.construct String 500 100 15000 true true 0 (some batchFs)).1
        = some batchFs := by
  decide

/-- A queue with `limit = 3` after pushing "a", "b", "c" one call each. -/
def qabc : kju String :=
  (((kju.init String 3 100 15000 true 0).push ["a"]).push ["b"]).push ["c"]

/-- C5: with `limit = 3`, pushing "a", "b", "c" brings `length` to the
limit, but no drain happens: the buffer still holds all three items and
`drained` is still 0 (the claim says a drain is triggered with batch
`["a","b","c"]` and `drainedCount = 1`).  The limit check in the source
(`this.update.bind(this)`, line 136) builds a bound function and discards
it without calling it. -/
theorem C5_reaching_limit_does_not_drain :
    qabc.limit ≤ qabc.length ∧
    qabc.length = 3 ∧
    qabc.buffer = ["a", "b", "c"] ∧
    qabc.drained = 0 := by
  decide

/-- A queue that was constructed at time 1000, pushed two items and drained
once: `processed = 2`, `drained = 1`. -/
def mq : kju String :=
  (kju.drain ((kju.init String 500 100 15000 true 1000).push ["a", "b"])).1

/-- C9: the metrics snapshot does expose the drain count, processed count,
uptime and interval, but the two rates are not derived from the counters
and the uptime: `items per minute` is `processed / 60000` — identical at
uptime 60000 ms and at uptime 120000 ms (for 2 processed items it is
1/30000, not 2 per minute) — and `drains per minute` divides the `drain`
method itself by 60000, yielding `NaN` (modelled `none`). -/
theorem C9_metrics_rates_not_derived_from_uptime :
    mq.processed = 2 ∧ mq.drained = 1 ∧
    (kju.metrics mq 61000).drain = 1 ∧
    (kju.metrics mq 61000).uptime = 60000 ∧
    (kju.metrics mq 121000).uptime = 120000 ∧
    (kju.metrics mq 61000).itemsPerMinute = (kju.metrics mq 121000).itemsPerMinute ∧
    (kju.metrics mq 61000).itemsPerMinute = 1 / 30000 ∧
    (kju.metrics mq 61000).drainsPerMinute = none := by
  have h : mq.processed = 2 := by decide
  refine ⟨h, by decide, by decide, by decide, by decide, rfl, ?_, rfl⟩
  show (mq.processed : ℚ) / (1000 * 60) = 1 / 30000
  rw [h]
  norm_num

/-- C10: `push` appends the items (in call order) to `buffer` and adds
their count to `length`; the fields `drained`, `processed`, `interval`,
`minimum`, `maximum` and `since` are unchanged by every push. -/
theorem C10_push_mutates_only_buffer_and_length {α : Type}
    (q : kju α) (items : List α) :
    (kju.push q items).buffer = q.buffer ++ items ∧
    (kju.push q items).length = q.length + items.length ∧
    (kju.push q items).drained = q.drained ∧
    (kju.push q items).processed = q.processed ∧
    (kju.push q items).interval = q.interval ∧
    (kju.push q items).minimum = q.minimum ∧
    (kju.push q items).maximum = q.maximum ∧
    (kju.push q items).since = q.since :=
  ⟨rfl, rfl, rfl, rfl, rfl, rfl, rfl, rfl⟩

/-- C4 counterexample: draining a freshly constructed (empty) queue is not
a no-op — a `data` event with an empty batch and count 0 is published, and
`drained` changes from 0 to 1. -/
theorem C4_empty_drain_counterexample :
    (kju.drain (kju.init String 500 100 15000 true 0)).2 = [event.data [] 0] ∧
    (kju.drain (kju.init String 500 100 15000 true 0)).1.drained = 1 ∧
    (kju.init String 500 100 15000 true 0).drained = 0 := by
  decide

/-- C4 amended: invoking `drain` on a queue whose buffer is empty publishes
a `data` signal with an empty batch and count 0 and increments `drained`
by 1; `processed`, `length` and `buffer` are unchanged.  (The call sites in the source guard with `this.length`, so the scheduler and `disable` never
invoke an empty drain; `drain` itself does not.) -/
theorem C4_amended_empty_drain {α : Type} (q : kju α)
    (hb : q.buffer = []) (hl : q.length = 0) :
    (kju.drain q).2 = [event.data [] 0] ∧
    (kju.drain q).1.drained = q.drained + 1 ∧
    (kju.drain q).1.processed = q.processed ∧
    (kju.drain q).1.length = q.length ∧
    (kju.drain q).1.buffer = q.buffer := by
  refine ⟨?_, rfl, ?_, ?_, ?_⟩
  · simp [kju.drain, hb, hl]
  · simp [kju.drain, hl]
  · simp [kju.drain, hl]
  · simp [kju.drain, hb]

/-- Witness for the amended C4 theorem at the concrete empty queue
`kju.init Unit 500 100 15000 true 0`. -/
theorem C4_amended_empty_drain_witness :
    (kju.drain (kju.init Unit 500 100 15000 true 0)).2 = [event.data [] 0] ∧
    (kju.drain (kju.init Unit 500 100 15000 true 0)).1.drained
      = (kju.init Unit 500 100 15000 true 0).drained + 1 := by
  have h := C4_amended_empty_drain (kju.init Unit 500 100 15000 true 0) rfl rfl
  exact ⟨h.1, h.2.1⟩

/-- The queue buffer after processing a file list is the original buffer
followed by the successfully parsed items of each file, in scan order. -/
lemma recoverFiles_buffer {α : Type} (q : kju α)
    (fs : List (String × fileContent α)) :
    (kju.recoverFiles q fs).1.buffer = q.buffer ++ fs.flatMap fileItems := by
  induction fs generalizing q with
  | nil => simp [kju.recoverFiles]
  | cons f rest ih =>
      cases hf : f.2 <;>
        simp [kju.recoverFiles, kju.readOne, hf, fileItems, ih, kju.push]

/-- The events emitted while processing a file list are the per-file events
(one `error.recover` per unreadable or corrupt file), concatenated in scan
order. -/
lemma recoverFiles_events {α : Type} (q : kju α)
    (fs : List (String × fileContent α)) :
    (kju.recoverFiles q fs).2 = fs.flatMap fileEvents := by
  induction fs generalizing q with
  | nil => simp [kju.recoverFiles]
  | cons f rest ih =>
      cases hf : f.2 <;>
        simp [kju.recoverFiles, kju.readOne, hf, fileEvents, ih]

/-- C8: for every recovery file that fails to read (`unreadable`) or fails
JSON parsing (`corrupt`), the recovery pass emits an `error.recover` event
naming that file, deletes nothing (the directory listing is returned
unchanged, so the file is left in place), and still ingests every other
file: the final buffer extends the original one with the parsed items of
all `.kju` files that did parse, in scan order. -/
theorem C8_recover_error_surfaced_and_isolated {α : Type}
    (files : List (String × fileContent α)) (q : kju α)
    (f : String × fileContent α) (hf : f ∈ files) (hk : kjuFile f.1 = true)
    (hbad : f.2 = fileContent.unreadable ∨ f.2 = fileContent.corrupt) :
    (kju.recovery (some files) q).1 = some files ∧
    event.errorRecover f.1 ∈ (kju.recovery (some files) q).2.2 ∧
    (kju.recovery (some files) q).2.1.buffer
      = q.buffer ++ (files.filter fun g => kjuFile g.1).flatMap fileItems := by
  refine ⟨rfl, ?_, ?_⟩
  · have hmem : f ∈ files.filter fun g => kjuFile g.1 :=
      List.mem_filter.mpr ⟨hf, hk⟩
    have hev : event.errorRecover f.1 ∈ fileEvents f := by
      rcases hbad with h | h <;> simp [fileEvents, h]
    show event.errorRecover f.1
        ∈ (kju.recoverFiles q (files.filter fun g => kjuFile g.1)).2
    rw [recoverFiles_events]
    exact List.mem_flatMap.mpr ⟨f, hmem, hev⟩
  · exact recoverFiles_buffer q _

/-- Directory listing with one corrupt recovery file and one good one. -/
def mixedFs : List (String × fileContent String) :=
  [("bad.kju", fileContent.corrupt), ("good.kju", fileContent.array ["x"])]

/-- Witness for C8 at a concrete directory: the corrupt `bad.kju` is
reported and kept, and `good.kju` is still recovered into the buffer. -/
theorem C8_recover_error_witness :
    (kju.recovery (some mixedFs) (kju.init String 500 100 15000 true 0)).1
        = some mixedFs ∧
    event.errorRecover "bad.kju"
        ∈ (kju.recovery (some mixedFs) (kju.init String 500 100 15000 true 0)).2.2 ∧
    (kju.recovery (some mixedFs) (kju.init String 500 100 15000 true 0)).2.1.buffer
      = (kju.init String 500 100 15000 true 0).buffer
          ++ (mixedFs.filter fun g => kjuFile g.1).flatMap fileItems := by
  exact C8_recover_error_surfaced_and_isolated mixedFs
    (kju.init String 500 100 15000 true 0) ("bad.kju", fileContent.corrupt)
    (by simp [mixedFs]) (by decide) (Or.inr rfl)

/-- The interval adjustment does not change `length`. -/
lemma updateInterval_length {α : Type} (q : kju α) :
    (kju.updateInterval q).1.length = q.length := by
  unfold kju.updateInterval; split_ifs <;> rfl

/-- The interval adjustment does not change `buffer`. -/
lemma updateInterval_buffer {α : Type} (q : kju α) :
    (kju.updateInterval q).1.buffer = q.buffer := by
  unfold kju.updateInterval; split_ifs <;> rfl

/-- The interval adjustment does not change `minimum`. -/
lemma updateInterval_minimum {α : Type} (q : kju α) :
    (kju.updateInterval q).1.minimum = q.minimum := by
  unfold kju.updateInterval; split_ifs <;> rfl

/-- The interval adjustment does not change `maximum`. -/
lemma updateInterval_maximum {α : Type} (q : kju α) :
    (kju.updateInterval q).1.maximum = q.maximum := by
  unfold kju.updateInterval; split_ifs <;> rfl

/-- The interval adjustment does not change `ms`. -/
lemma updateInterval_ms {α : Type} (q : kju α) :
    (kju.updateInterval q).1.ms = q.ms := by
  unfold kju.updateInterval; split_ifs <;> rfl

/-- A tick leaves the interval exactly where the adjustment put it (the
trailing drain touches only the buffer and the counters). -/
lemma update_fst_interval {α : Type} (q : kju α) :
    (kju.update q).1.interval = (kju.updateInterval q).1.interval := by
  unfold kju.update; split_ifs <;> rfl

/-- A tick does not change `minimum`. -/
lemma update_fst_minimum {α : Type} (q : kju α) :
    (kju.update q).1.minimum = q.minimum := by
  unfold kju.update; split_ifs <;> exact updateInterval_minimum q

/-- A tick does not change `maximum`. -/
lemma update_fst_maximum {α : Type} (q : kju α) :
    (kju.update q).1.maximum = q.maximum := by
  unfold kju.update; split_ifs <;> exact updateInterval_maximum q

/-- A tick does not change `ms`. -/
lemma update_fst_ms {α : Type} (q : kju α) :
    (kju.update q).1.ms = q.ms := by
  unfold kju.update; split_ifs <;> exact updateInterval_ms q

/-- Equation for the interval adjustment on an underfull tick. -/
lemma updateInterval_underfull {α : Type} (q : kju α)
    (h : q.length = 0 ∨ q.length < q.limit) :
    kju.updateInterval q =
      ({ q with interval := if q.maximum ≤ q.interval then q.maximum else q.interval + q.ms },
        if q.warnings = true ∧
            (if q.maximum ≤ q.interval then q.maximum else q.interval + q.ms) = q.maximum then
          [event.warningMaximum]
        else []) := by
  unfold kju.updateInterval; rw [if_pos h]

/-- On an empty queue a tick is just the interval adjustment (no drain). -/
lemma update_of_empty {α : Type} (q : kju α) (h : q.length = 0) :
    kju.update q = kju.updateInterval q := by
  have hne : ¬ ((kju.updateInterval q).1.length ≠ 0) := by
    simp [updateInterval_length, h]
  unfold kju.update
  rw [if_neg hne]

/-- Equation for the interval adjustment on an overfull tick. -/
lemma updateInterval_overfull {α : Type} (q : kju α)
    (h1 : ¬ (q.length = 0 ∨ q.length < q.limit)) (h3 : q.limit ≤ q.length) :
    kju.updateInterval q =
      ({ q with interval := if q.interval ≤ q.minimum then q.minimum else q.interval - q.ms },
        if q.warnings = true ∧
            (if q.interval ≤ q.minimum then q.minimum else q.interval - q.ms) = q.minimum then
          [event.warningMinimum]
        else []) := by
  unfold kju.updateInterval; rw [if_neg h1, if_pos h3]

/-- The new interval after an adjustment is the clamped maximum, a plain
`+ ms` step taken strictly below the maximum, the clamped minimum, or a
plain `- ms` step taken strictly above the minimum. -/
lemma updateInterval_interval_cases {α : Type} (q : kju α) :
    (kju.updateInterval q).1.interval = q.maximum ∨
    ((kju.updateInterval q).1.interval = q.interval + q.ms ∧ q.interval < q.maximum) ∨
    (kju.updateInterval q).1.interval = q.minimum ∨
    ((kju.updateInterval q).1.interval = q.interval - q.ms ∧ q.minimum < q.interval) := by
  by_cases h1 : q.length = 0 ∨ q.length < q.limit
  · rw [updateInterval_underfull q h1]
    by_cases h2 : q.maximum ≤ q.interval
    · rw [if_pos h2]
      exact Or.inl rfl
    · rw [if_neg h2]
      exact Or.inr (Or.inl ⟨rfl, lt_of_not_le h2⟩)
  · have h3 : q.limit ≤ q.length := by
      push_neg at h1
      exact h1.2
    rw [updateInterval_overfull q h1 h3]
    by_cases h4 : q.interval ≤ q.minimum
    · rw [if_pos h4]
      exact Or.inr (Or.inr (Or.inl rfl))
    · rw [if_neg h4]
      exact Or.inr (Or.inr (Or.inr ⟨rfl, lt_of_not_le h4⟩))

/-- C6 amended: for every configuration with positive step `ms` and positive
baseline `b`, every state reachable by pushes, ticks and drains keeps
`minimum = b / 2` and `maximum = b * 2` fixed, and the interval stays in the
open band `(minimum - ms, maximum + ms)`: a single tick can overshoot
`maximum` (or undershoot `minimum`) by less than `ms` before being clamped
on the next tick, but it can never leave this widened band. -/
theorem C6_amended_interval_band {α : Type} (limit : ℕ) (ms b : ℚ) (w : Bool)
    (s : ℕ) (q : kju α) (hms : 0 < ms) (hb : 0 < b)
    (hq : reachable limit ms b w s q) :
    q.ms = ms ∧ q.minimum = b / 2 ∧ q.maximum = b * 2 ∧
    q.minimum - ms < q.interval ∧ q.interval < q.maximum + ms := by
  induction hq with
  | init =>
      refine ⟨rfl, rfl, rfl, ?_, ?_⟩
      · show b / 2 - ms < b
        linarith
      · show b < b * 2 + ms
        linarith
  | push q items hr ih => exact ih
  | drainStep q hr ih => exact ih
  | tick q hr ih =>
      obtain ⟨hqms, hmin, hmax, hlo, hhi⟩ := ih
      have hminmax : q.minimum ≤ q.maximum := by
        rw [hmin, hmax]; linarith
      refine ⟨?_, ?_, ?_, ?_, ?_⟩
      · rw [update_fst_ms]; exact hqms
      · rw [update_fst_minimum]; exact hmin
      · rw [update_fst_maximum]; exact hmax
      · rw [update_fst_minimum, update_fst_interval]
        rcases updateInterval_interval_cases q with h | ⟨h, hc⟩ | h | ⟨h, hc⟩ <;>
          simp only [h, hqms] <;> linarith
      · rw [update_fst_maximum, update_fst_interval]
        rcases updateInterval_interval_cases q with h | ⟨h, hc⟩ | h | ⟨h, hc⟩ <;>
          simp only [h, hqms] <;> linarith

/-- Witness for the amended C6 theorem: the freshly constructed queue with
baseline 1000 and step 100 sits inside the widened band. -/
theorem C6_amended_witness :
    (kju.init Unit 500 100 1000 true 0).minimum - 100
        < (kju.init Unit 500 100 1000 true 0).interval ∧
    (kju.init Unit 500 100 1000 true 0).interval
        < (kju.init Unit 500 100 1000 true 0).maximum + 100 := by
  have h := C6_amended_interval_band 500 100 1000 true 0
    (kju.init Unit 500 100 1000 true 0) (by norm_num) (by norm_num)
    reachable.init
  exact ⟨h.2.2.2.1, h.2.2.2.2⟩

/-- An empty enabled queue with `limit = 500`, step `m`, warnings on,
`minimum = 500` and `maximum = 2000` (the values a baseline interval of 1000
produces), currently at interval `i`. -/
def cq (m i : ℚ) : kju Unit :=
  { limit := 500
    ms := m
    interval := i
    warnings := true
    buffer := []
    length := 0
    drained := 0
    processed := 0
    since := 0
    minimum := 500
    maximum := 2000 }

/-- A queue constructed with baseline interval 1000 and step `m` is exactly
`cq m 1000`. -/
lemma init_eq_cq (m : ℚ) : kju.init Unit 500 m 1000 true 0 = cq m 1000 := by
  simp only [kju.init, cq, kju.mk.injEq]
  norm_num

/-- One tick on `cq m i` while strictly below the 2000 ceiling: the
interval grows by the full step `m` (unclamped) and `warning.maximum` fires
exactly when the sum lands on 2000. -/
lemma cq_step (m i : ℚ) (h1 : ¬ (2000 ≤ i)) :
    kju.update (cq m i) =
      (cq m (i + m),
        if i + m = 2000 then [event.warningMaximum] else []) := by
  rw [update_of_empty _ rfl, updateInterval_underfull _ (Or.inl rfl)]
  show ((⟨500, m, if (2000:ℚ) ≤ i then 2000 else i + m, true, [], 0, 0, 0, 0, 500, 2000⟩ : kju Unit),
      if true = true ∧ (if (2000:ℚ) ≤ i then 2000 else i + m) = 2000 then
        [event.warningMaximum] else []) = _
  rw [if_neg h1]
  simp [cq]

/-- The state part of one tick on `cq m i` below the ceiling. -/
lemma cq_step_fst (m i : ℚ) (h1 : ¬ (2000 ≤ i)) :
    (kju.update (cq m i)).1 = cq m (i + m) := by
  rw [cq_step m i h1]

/-- C6 counterexample: with baseline interval 1000 (so `maximum = 2000`)
and step 300, four consecutive ticks on an empty buffer take the interval
1000 → 1300 → 1600 → 1900 → 2200: after the fourth tick the interval is
2200, strictly above the fixed maximum 2000, so it does not stay within
`[minimum, maximum]`. -/
theorem C6_counterexample_interval_leaves_band :
    ((kju.update (kju.update (kju.update (kju.update
        (kju.init Unit 500 300 1000 true 0)).1).1).1).1).interval = 2200 ∧
    ((kju.update (kju.update (kju.update (kju.update
        (kju.init Unit 500 300 1000 true 0)).1).1).1).1).maximum = 2000 ∧
    ¬ (((kju.update (kju.update (kju.update (kju.update
        (kju.init Unit 500 300 1000 true 0)).1).1).1).1).interval
      ≤ ((kju.update (kju.update (kju.update (kju.update
        (kju.init Unit 500 300 1000 true 0)).1).1).1).1).maximum) := by
  have s0 := init_eq_cq 300
  have s1 : (kju.update (cq 300 1000)).1 = cq 300 1300 := by
    rw [cq_step_fst 300 1000 (by norm_num)]
    norm_num [cq, kju.mk.injEq]
  have s2 : (kju.update (cq 300 1300)).1 = cq 300 1600 := by
    rw [cq_step_fst 300 1300 (by norm_num)]
    norm_num [cq, kju.mk.injEq]
  have s3 : (kju.update (cq 300 1600)).1 = cq 300 1900 := by
    rw [cq_step_fst 300 1600 (by norm_num)]
    norm_num [cq, kju.mk.injEq]
  have s4 : (kju.update (cq 300 1900)).1 = cq 300 2200 := by
    rw [cq_step_fst 300 1900 (by norm_num)]
    norm_num [cq, kju.mk.injEq]
  rw [s0, s1, s2, s3, s4]
  norm_num [cq]

/-- C7 counterexample: with baseline 1000 (`maximum = 2000`), step 300 and
warnings enabled, the underfull tick taken at interval 1900 does not move
the interval to the clamped value `min (1900 + 300) 2000 = 2000`: it sets
it to 2200, and no `warning.maximum` fires even though the clamped result
would equal the maximum. -/
theorem C7_counterexample_tick_not_clamped :
    ((kju.update (kju.update (kju.update
        (kju.init Unit 500 300 1000 true 0)).1).1).1).interval = 1900 ∧
    ((kju.update (kju.update (kju.update
        (kju.init Unit 500 300 1000 true 0)).1).1).1).warnings = true ∧
    (kju.update ((kju.update (kju.update (kju.update
        (kju.init Unit 500 300 1000 true 0)).1).1).1)).1.interval = 2200 ∧
    min (((kju.update (kju.update (kju.update
        (kju.init Unit 500 300 1000 true 0)).1).1).1).interval
        + ((kju.update (kju.update (kju.update
        (kju.init Unit 500 300 1000 true 0)).1).1).1).ms)
      (((kju.update (kju.update (kju.update
        (kju.init Unit 500 300 1000 true 0)).1).1).1).maximum) = 2000 ∧
    event.warningMaximum ∉ (kju.update ((kju.update (kju.update (kju.update
        (kju.init Unit 500 300 1000 true 0)).1).1).1)).2 := by
  have s0 := init_eq_cq 300
  have s1 : (kju.update (cq 300 1000)).1 = cq 300 1300 := by
    rw [cq_step_fst 300 1000 (by norm_num)]
    norm_num [cq, kju.mk.injEq]
  have s2 : (kju.update (cq 300 1300)).1 = cq 300 1600 := by
    rw [cq_step_fst 300 1300 (by norm_num)]
    norm_num [cq, kju.mk.injEq]
  have s3 : (kju.update (cq 300 1600)).1 = cq 300 1900 := by
    rw [cq_step_fst 300 1600 (by norm_num)]
    norm_num [cq, kju.mk.injEq]
  have s4 : kju.update (cq 300 1900) = (cq 300 2200, []) := by
    rw [cq_step 300 1900 (by norm_num)]
    norm_num [cq, kju.mk.injEq]
  rw [s0, s1, s2, s3, s4]
  refine ⟨rfl, rfl, rfl, ?_, by simp⟩
  show min ((1900:ℚ) + 300) 2000 = 2000
  rw [min_eq_right (by norm_num : (2000:ℚ) ≤ 1900 + 300)]

/-- The events of a tick are the interval-adjustment events followed by the
`data` event of the trailing drain when the buffer is non-empty. -/
lemma update_snd {α : Type} (q : kju α) :
    (kju.update q).2 = (kju.updateInterval q).2 ++
      (if q.length ≠ 0 then [event.data q.buffer q.length] else []) := by
  unfold kju.update
  by_cases h : q.length = 0
  · have hne : ¬ ((kju.updateInterval q).1.length ≠ 0) := by
      simp [updateInterval_length, h]
    rw [if_neg hne, if_neg (by simpa using h)]
    simp
  · have hne : (kju.updateInterval q).1.length ≠ 0 := by
      simpa [updateInterval_length] using h
    rw [if_pos hne, if_pos h]
    simp [kju.drain, updateInterval_buffer, updateInterval_length]

/-- C7 amended: on every tick where `length = 0` or `length < limit`, the
interval becomes `maximum` if it was already at or above `maximum`, and
otherwise grows by the full step `ms` (which can overshoot `maximum` when
`ms` does not divide the remaining gap — the result is not clamped); a
`warning.maximum` signal is emitted on exactly the ticks where warnings are
enabled and the resulting interval equals `maximum` (continuous while held
at the ceiling, not edge-triggered).  In the concrete scenario with
baseline 1000 and step 100 (`maximum = 2000`), after 10 ticks on an empty
buffer the interval reaches 2000 and `warning.maximum` has fired. -/
theorem C7_amended_underfull_tick_behavior :
    (∀ {β : Type} (q : kju β), q.length = 0 ∨ q.length < q.limit →
        ((kju.update q).1.interval
            = if q.maximum ≤ q.interval then q.maximum else q.interval + q.ms) ∧
        (event.warningMaximum ∈ (kju.update q).2 ↔
            q.warnings = true ∧ (kju.update q).1.interval = q.maximum)) ∧
    (kju.runTicks (kju.init Unit 500 100 1000 true 0) 10).1.interval = 2000 ∧
    event.warningMaximum
      ∈ (kju.runTicks (kju.init Unit 500 100 1000 true 0) 10).2 := by
  have hgen : ∀ {β : Type} (q : kju β), q.length = 0 ∨ q.length < q.limit →
      ((kju.update q).1.interval
          = if q.maximum ≤ q.interval then q.maximum else q.interval + q.ms) ∧
      (event.warningMaximum ∈ (kju.update q).2 ↔
          q.warnings = true ∧ (kju.update q).1.interval = q.maximum) := by
    intro β q h
    have hI := updateInterval_underfull q h
    have hint : (kju.update q).1.interval
        = if q.maximum ≤ q.interval then q.maximum else q.interval + q.ms := by
      rw [update_fst_interval, hI]
    refine ⟨hint, ?_⟩
    rw [update_snd, hI, hint]
    by_cases hl : q.length ≠ 0 <;>
      by_cases hw : q.warnings = true ∧
          (if q.maximum ≤ q.interval then q.maximum else q.interval + q.ms)
            = q.maximum <;>
      simp [hl, hw]
  refine ⟨hgen, ?_, ?_⟩ <;>
  · have t1 : kju.update (cq 100 1000) = (cq 100 1100, []) := by
      rw [cq_step 100 1000 (by norm_num)]; norm_num [cq, kju.mk.injEq]
    have t2 : kju.update (cq 100 1100) = (cq 100 1200, []) := by
      rw [cq_step 100 1100 (by norm_num)]; norm_num [cq, kju.mk.injEq]
    have t3 : kju.update (cq 100 1200) = (cq 100 1300, []) := by
      rw [cq_step 100 1200 (by norm_num)]; norm_num [cq, kju.mk.injEq]
    have t4 : kju.update (cq 100 1300) = (cq 100 1400, []) := by
      rw [cq_step 100 1300 (by norm_num)]; norm_num [cq, kju.mk.injEq]
    have t5 : kju.update (cq 100 1400) = (cq 100 1500, []) := by
      rw [cq_step 100 1400 (by norm_num)]; norm_num [cq, kju.mk.injEq]
    have t6 : kju.update (cq 100 1500) = (cq 100 1600, []) := by
      rw [cq_step 100 1500 (by norm_num)]; norm_num [cq, kju.mk.injEq]
    have t7 : kju.update (cq 100 1600) = (cq 100 1700, []) := by
      rw [cq_step 100 1600 (by norm_num)]; norm_num [cq, kju.mk.injEq]
    have t8 : kju.update (cq 100 1700) = (cq 100 1800, []) := by
      rw [cq_step 100 1700 (by norm_num)]; norm_num [cq, kju.mk.injEq]
    have t9 : kju.update (cq 100 1800) = (cq 100 1900, []) := by
      rw [cq_step 100 1800 (by norm_num)]; norm_num [cq, kju.mk.injEq]
    have t10 : kju.update (cq 100 1900) = (cq 100 2000, [event.warningMaximum]) := by
      rw [cq_step 100 1900 (by norm_num)]; norm_num [cq, kju.mk.injEq]
    have hrun : kju.runTicks (cq 100 1000) 10
        = (cq 100 2000, [event.warningMaximum]) := by
      simp [kju.runTicks, t1, t2, t3, t4, t5, t6, t7, t8, t9, t10]
    rw [init_eq_cq 100, hrun]
    simp [cq]

/-- Witness for the amended C7 theorem: the first underfull tick of a queue
with baseline 1000 and step 100 moves the interval from 1000 to 1100. -/
theorem C7_amended_witness :
    (kju.update (kju.init Unit 500 100 1000 true 0)).1.interval = 1100 := by
  have h := (C7_amended_underfull_tick_behavior.1
    (kju.init Unit 500 100 1000 true 0) (Or.inl rfl)).1
  rw [h]
  norm_num [kju.init]
